import Mathlib

/-!
Relay GATT service (`app/Profiles/relayservice.c`)

A shallow embedding of the relay service profile: the module's static
variables become a `State` record, every public function and both attribute
callbacks become a pure function from the state before the call to a status,
the state after the call and the list of calls the function itself makes into
code outside the module.  Results of outside routines are arguments of the
function that calls them.
-/

set_option linter.unusedVariables false

namespace RelayService

/-! ## Status codes and constants -/

/-- The status byte `bStatus_t` returned by every entry point. -/
abbrev bStatus_t := Nat

/-- Modelled from the spec: the status constants come from `bcomdef.h` and
`att.h`, which are not among the sources; the values are those of the BLE stack
headers, and the spec's error taxonomy only relies on their being distinct. -/
def SUCCESS : bStatus_t := 0x00

/-- Modelled from the spec: `InvalidParameter` of the accessors (`bcomdef.h`). -/
def INVALIDPARAMETER : bStatus_t := 0x02

/-- Modelled from the spec: `MemoryAllocationError` (`bcomdef.h`). -/
def bleMemAllocError : bStatus_t := 0x13

/-- Modelled from the spec: `InvalidRange` of the set accessor (`bcomdef.h`). -/
def bleInvalidRange : bStatus_t := 0x18

/-- Modelled from the spec: `InvalidHandle` (`att.h`). -/
def ATT_ERR_INVALID_HANDLE : bStatus_t := 0x01

/-- Modelled from the spec: `InsufficientAuthorization` (`att.h`). -/
def ATT_ERR_INSUFFICIENT_AUTHOR : bStatus_t := 0x08

/-- Modelled from the spec: `AttributeNotFound` (`att.h`). -/
def ATT_ERR_ATTR_NOT_FOUND : bStatus_t := 0x0A

/-- Modelled from the spec: `NotLong` (`att.h`). -/
def ATT_ERR_ATTR_NOT_LONG : bStatus_t := 0x0B

/-- Modelled from the spec: `InvalidValueSize` (`att.h`). -/
def ATT_ERR_INVALID_VALUE_SIZE : bStatus_t := 0x0D

/-- Relay state UUID, `#define RELAY_STATE_UUID 0x2F01`. -/
def RELAY_STATE_UUID : Nat := 0x2F01

/-- Modelled from the spec: the identity of the client-subscription-configuration
attribute, `GATT_CLIENT_CHAR_CFG_UUID` of `gatt_uuid.h` (not among the sources). -/
def GATT_CLIENT_CHAR_CFG_UUID : Nat := 0x2902

/-- Modelled from the spec: the only parameter id, `STATE`; `RELAY_PARAM_STATE`
is declared in `relayservice.h` (not among the sources). -/
def RELAY_PARAM_STATE : Nat := 0

/-- Modelled from the spec: the notify-enabled configuration flag,
`GATT_CLIENT_CFG_NOTIFY` of `gatt.h` (not among the sources). -/
def GATT_CLIENT_CFG_NOTIFY : Nat := 0x0001

/-- Modelled from the spec: the "no connection" handle, `INVALID_CONNHANDLE` of
`bcomdef.h` (not among the sources). -/
def INVALID_CONNHANDLE : Nat := 0xFFFF

/-- Entries of `relayAttrTbl`, i.e. `GATT_NUM_ATTRS(relayAttrTbl)`. -/
def GATT_NUM_ATTRS_relayAttrTbl : Nat := 5

/-! ## Data model -/

/-- Where an attribute's `pValue` points: at the static `relayState` (the
value attribute of `relayAttrTbl`, `&relayState`) or at some other byte. -/
inductive Ptr where
  | relayState
  | other (addr : Nat)
  deriving DecidableEq, Repr

/-- The attribute type `gattAttrType_t`: length and bytes of the UUID. -/
structure gattAttrType_t where
  len : Nat
  uuid : List Nat
  deriving DecidableEq, Repr

/-- The attribute record `gattAttribute_t`. -/
structure gattAttribute_t where
  type : gattAttrType_t
  permissions : Nat
  handle : Nat
  pValue : Ptr
  deriving DecidableEq, Repr

/-- The module's static variables, and the bytes outside the module that an
attribute's `pValue` may point at. `none` is `NULL`. -/
structure State where
  relayState : Nat
  relayServiceStateChangeCB : Option Nat
  relayStateClientCharCfg : Option Nat
  mem : Nat → Nat

/-- State at program start: statics are zero-initialised, the callback is
`NULL`. -/
def initState (mem : Nat → Nat) : State :=
  { relayState := 0, relayServiceStateChangeCB := none,
    relayStateClientCharCfg := none, mem := mem }

/-- Read of `*p`. -/
def load (s : State) : Ptr → Nat
  | Ptr.relayState => s.relayState
  | Ptr.other a => s.mem a

/-- Assignment `*p = v`. -/
def store (s : State) (p : Ptr) (v : Nat) : State :=
  match p with
  | Ptr.relayState => { s with relayState := v }
  | Ptr.other a => { s with mem := Function.update s.mem a v }

/-- A call the module makes into code outside it, with the arguments that
matter: for the notification broadcast the byte at `&relayState` and
`NOTIFY_AUTH`; for the state-change callback the function called and the value
`relayState` holds at the moment of the call. -/
inductive ExtCall where
  | ICall_malloc
  | GATTServApp_InitCharCfg (connHandle : Nat)
  | GATTServApp_RegisterService (numAttrs : Nat)
  | GATTServApp_ProcessCharCfg (value : Nat) (auth : Bool)
  | GATTServApp_ProcessCCCWriteReq (connHandle : Nat) (pValue : List Nat)
      (len offset validCfg : Nat)
  | relayServiceStateChangeCB (fn : Nat) (relayStateSeen : Nat)
  deriving DecidableEq, Repr

/-- The parts of the surrounding program the module depends on:
`utilExtractUuid16` of `ha_util.h` (`none` is `FAILURE`), the authorization
predicate `gattPermitAuthorWrite` of `gatt.h`, the build switch behind
`NOTIFY_AUTH`, and what running the application function at a callback address
does to the module's state (it may call back into the accessors). -/
structure Ext where
  utilExtractUuid16 : gattAttribute_t → Option Nat
  gattPermitAuthorWrite : Nat → Bool
  NOTIFY_AUTH : Bool
  invoke : Nat → State → State

/-- Outcome of a state-changing entry point. -/
structure Outcome where
  status : bStatus_t
  state : State
  calls : List ExtCall

/-- Outcome of `RelayReadAttrCB`: the status and what was written to `*pLen`
and to `pValue[0]` (`none`: not written). -/
structure ReadOutcome where
  status : bStatus_t
  pLen : Option Nat
  pValue0 : Option Nat
  deriving DecidableEq, Repr

/-- C's `!!x`. -/
def notnot (x : Nat) : Nat := if x ≠ 0 then 1 else 0

/-! ## The functions of `relayservice.c` -/

/-- `Relay_AddService`: `mallocRet` is what `ICall_malloc` returns,
`registerRet` what `GATTServApp_RegisterService` returns. -/
def Relay_AddService (mallocRet : Option Nat) (registerRet : bStatus_t) (s : State) :
    Outcome :=
  let s1 := { s with relayStateClientCharCfg := mallocRet }
  match mallocRet with
  | none => { status := bleMemAllocError, state := s1, calls := [ExtCall.ICall_malloc] }
  | some _ =>
    { status := registerRet, state := s1,
      calls := [ExtCall.ICall_malloc,
                ExtCall.GATTServApp_InitCharCfg INVALID_CONNHANDLE,
                ExtCall.GATTServApp_RegisterService GATT_NUM_ATTRS_relayAttrTbl] }

/-- `Relay_SetParameter(param, len, value)`: `value` is the byte `value` points
at, `notifyRet` what `GATTServApp_ProcessCharCfg` returns. -/
def Relay_SetParameter (ext : Ext) (notifyRet : bStatus_t) (s : State)
    (param len value : Nat) : Outcome :=
  if param = RELAY_PARAM_STATE then
    if len = 1 then
      let state := value
      if state ≠ s.relayState then
        let s1 := { s with relayState := state }
        { status := notifyRet, state := s1,
          calls := [ExtCall.GATTServApp_ProcessCharCfg s1.relayState ext.NOTIFY_AUTH] }
      else
        { status := SUCCESS, state := s, calls := [] }
    else
      { status := bleInvalidRange, state := s, calls := [] }
  else
    { status := INVALIDPARAMETER, state := s, calls := [] }

/-- `Relay_GetParameter(param, value)`: the status and the byte written to
`*value` (`none`: not written). -/
def Relay_GetParameter (s : State) (param : Nat) : bStatus_t × Option Nat :=
  if param = RELAY_PARAM_STATE then (SUCCESS, some s.relayState)
  else (INVALIDPARAMETER, none)

/-- `RelayReadAttrCB`. -/
def RelayReadAttrCB (ext : Ext) (s : State) (connHandle : Nat) (pAttr : gattAttribute_t)
    (offset maxLen method : Nat) : ReadOutcome :=
  if offset > 0 then
    { status := ATT_ERR_ATTR_NOT_LONG, pLen := none, pValue0 := none }
  else
    match ext.utilExtractUuid16 pAttr with
    | none => { status := ATT_ERR_INVALID_HANDLE, pLen := some 0, pValue0 := none }
    | some uuid =>
      if uuid = RELAY_STATE_UUID then
        { status := SUCCESS, pLen := some 1, pValue0 := some s.relayState }
      else
        { status := ATT_ERR_ATTR_NOT_FOUND, pLen := none, pValue0 := none }

/-- `RelayWriteAttrCB`: `pValue` is the payload buffer, `cccRet` what
`GATTServApp_ProcessCCCWriteReq` returns. -/
def RelayWriteAttrCB (ext : Ext) (cccRet : bStatus_t) (s : State) (connHandle : Nat)
    (pAttr : gattAttribute_t) (pValue : List Nat) (len offset method : Nat) : Outcome :=
  match ext.utilExtractUuid16 pAttr with
  | none => { status := ATT_ERR_INVALID_HANDLE, state := s, calls := [] }
  | some uuid =>
    if ext.gattPermitAuthorWrite pAttr.permissions then
      { status := ATT_ERR_INSUFFICIENT_AUTHOR, state := s, calls := [] }
    else if offset > 0 then
      { status := ATT_ERR_ATTR_NOT_LONG, state := s, calls := [] }
    else if uuid = RELAY_STATE_UUID then
      let status := if len ≠ 1 then ATT_ERR_INVALID_VALUE_SIZE else SUCCESS
      if status = SUCCESS then
        let pCurValue := pAttr.pValue
        if load s pCurValue ≠ notnot (pValue.headD 0) then
          match s.relayServiceStateChangeCB with
          | some fn =>
            { status := status,
              state := store (ext.invoke fn s) pCurValue (notnot (pValue.headD 0)),
              calls := [ExtCall.relayServiceStateChangeCB fn s.relayState] }
          | none =>
            { status := status,
              state := store s pCurValue (notnot (pValue.headD 0)),
              calls := [] }
        else
          { status := status, state := s, calls := [] }
      else
        { status := status, state := s, calls := [] }
    else if uuid = GATT_CLIENT_CHAR_CFG_UUID then
      { status := cccRet, state := s,
        calls := [ExtCall.GATTServApp_ProcessCCCWriteReq connHandle pValue len offset
                    GATT_CLIENT_CFG_NOTIFY] }
    else
      { status := ATT_ERR_ATTR_NOT_FOUND, state := s, calls := [] }

/-- `Relay_Setup(cCB)`. -/
def Relay_Setup (s : State) (cCB : Option Nat) : State :=
  { s with relayServiceStateChangeCB := cCB }

/-! ## A concrete surrounding program

Concrete values for the parts of the program outside the module, on which the
functions can be evaluated. -/

/-- A 16-bit identity from an attribute type the way the BLE stack's utility
does it: a 2-byte UUID directly, a 16-byte UUID from bytes 12 and 13, anything
else is `FAILURE`. -/
def sampleExtractUuid16 (a : gattAttribute_t) : Option Nat :=
  if a.type.len = 2 then some (a.type.uuid.getD 0 0 + 256 * a.type.uuid.getD 1 0)
  else if a.type.len = 16 then some (a.type.uuid.getD 12 0 + 256 * a.type.uuid.getD 13 0)
  else none

/-- The stack's `gattPermitAuthorWrite(a)`, `(a) & GATT_PERMIT_AUTHOR_WRITE`
with `GATT_PERMIT_AUTHOR_WRITE = 0x20`. -/
def sampleGattPermitAuthorWrite (permissions : Nat) : Bool :=
  permissions / 0x20 % 2 = 1

/-- A surrounding program: authenticated notifications, and callbacks that do
not touch the module's state. -/
def sampleExt : Ext :=
  { utilExtractUuid16 := sampleExtractUuid16,
    gattPermitAuthorWrite := sampleGattPermitAuthorWrite,
    NOTIFY_AUTH := true,
    invoke := fun _ s => s }

/-- The value attribute of `relayAttrTbl`: a 16-byte UUID carrying
`RELAY_STATE_UUID` (the base bytes are taken to be zero), read/write
permissions `0x03`, `pValue = &relayState`. -/
def sampleValueAttr : gattAttribute_t :=
  { type := { len := 16, uuid := [0, 0, 0, 0, 0, 0, 0, 0, 0, 0, 0, 0, 0x01, 0x2F, 0, 0] },
    permissions := 0x03, handle := 0, pValue := Ptr.relayState }

/-- The client characteristic configuration attribute of `relayAttrTbl`. -/
def sampleCccAttr : gattAttribute_t :=
  { type := { len := 2, uuid := [0x02, 0x29] },
    permissions := 0x03, handle := 0, pValue := Ptr.other 0 }

/-- An attribute like the value attribute whose permissions also carry
`GATT_PERMIT_AUTHOR_WRITE` (`0x20`). -/
def sampleAuthorAttr : gattAttribute_t :=
  { sampleValueAttr with permissions := 0x23 }

/-- An attribute whose type has neither 2 nor 16 bytes, so that no 16-bit
identity can be extracted. -/
def sampleOddAttr : gattAttribute_t :=
  { type := { len := 3, uuid := [1, 2, 3] },
    permissions := 0x03, handle := 0, pValue := Ptr.other 0 }

/-- Number of notification broadcasts (`GATTServApp_ProcessCharCfg`) among calls. -/
def notifyCount : List ExtCall → Nat
  | [] => 0
  | ExtCall.GATTServApp_ProcessCharCfg _ _ :: cs => notifyCount cs + 1
  | _ :: cs => notifyCount cs

/-- Number of invocations of the state-change callback among calls. -/
def callbackCount : List ExtCall → Nat
  | [] => 0
  | ExtCall.relayServiceStateChangeCB _ _ :: cs => callbackCount cs + 1
  | _ :: cs => callbackCount cs

/-- Scenario, start: initial state (value 0) with the application function at
address 7 installed as state-change callback. -/
def scenarioStart : State :=
  Relay_Setup (initState fun _ => 0) (some 7)

/-- Scenario, step 0: connection 1 subscribes, i.e. writes `01 00` to the client
characteristic configuration attribute, and the stack accepts it. -/
def scenarioSubscribe : Outcome :=
  RelayWriteAttrCB sampleExt SUCCESS scenarioStart 1 sampleCccAttr [0x01, 0x00] 2 0 0

/-- Scenario, step 1: a remote write of byte `0x05` to the value attribute. -/
def scenarioFirstWrite : Outcome :=
  RelayWriteAttrCB sampleExt SUCCESS scenarioSubscribe.state 1 sampleValueAttr [0x05] 1 0 0

/-- Scenario, step 2: a subsequent remote write of byte `0x01`. -/
def scenarioSecondWrite : Outcome :=
  RelayWriteAttrCB sampleExt SUCCESS scenarioFirstWrite.state 1 sampleValueAttr [0x01] 1 0 0

/-- State with the callback at address 7 installed after the application has
called `Relay_SetParameter(RELAY_PARAM_STATE, 1, &v)` with `v = 5`. -/
def stateAfterSetFive : State :=
  (Relay_SetParameter sampleExt SUCCESS scenarioStart RELAY_PARAM_STATE 1 5).state

/-- State after the application has called
`Relay_SetParameter(RELAY_PARAM_STATE, 1, &v)` with `v = 1` in the initial
state. -/
def stateAfterSetOne : State :=
  (Relay_SetParameter sampleExt SUCCESS (initState fun _ => 0) RELAY_PARAM_STATE 1 1).state

/-- The state after `RelayReadAttrCB` has returned, when its out-parameter
`pValue` points at `dst` and `pLen` at the caller's cell `lenAddr`: the
assignments `*pLen = ...` and `pValue[0] = relayState` the call makes, in the
order of the source, applied to the state. -/
def RelayReadAttrCB_effect (ext : Ext) (s : State) (connHandle : Nat)
    (pAttr : gattAttribute_t) (dst : Ptr) (lenAddr : Nat) (offset maxLen method : Nat) :
    State :=
  if offset > 0 then
    s
  else
    match ext.utilExtractUuid16 pAttr with
    | none => store s (Ptr.other lenAddr) 0
    | some uuid =>
      if uuid = RELAY_STATE_UUID then
        let s1 := store s (Ptr.other lenAddr) 1
        store s1 dst s1.relayState
      else
        s

/-- The characteristic user description attribute of `relayAttrTbl`: its
identity `0x2901` can be extracted and is neither the relay state nor the
client characteristic configuration. -/
def sampleUserDescAttr : gattAttribute_t :=
  { type := { len := 2, uuid := [0x01, 0x29] },
    permissions := 0x01, handle := 0, pValue := Ptr.other 1 }

/-- An application callback that calls
`Relay_GetParameter(RELAY_PARAM_STATE, &out)` and keeps `out` in the cell at
`addr`. -/
def recordingCallback (addr : Nat) (s : State) : State :=
  match (Relay_GetParameter s RELAY_PARAM_STATE).2 with
  | some out => store s (Ptr.other addr) out
  | none => s

/-- The sample surrounding program with every callback address running
`recordingCallback 9`. -/
def sampleRecordingExt : Ext :=
  { sampleExt with invoke := fun _ => recordingCallback 9 }

/-- A state with stored value 0, the callback at address 7 installed and the
value 77 in cell 9. -/
def recordingStart : State :=
  Relay_Setup (initState fun _ => 77) (some 7)

/-! ## Remote write and read of the value attribute -/

/-- A write of one byte at offset 0 to an attribute with the relay-state
identity and no write authorization required: the whole outcome. -/
theorem RelayWriteAttrCB_value (ext : Ext) (cccRet : bStatus_t) (s : State)
    (connHandle method : Nat) (pAttr : gattAttribute_t) (pValue : List Nat)
    (hid : ext.utilExtractUuid16 pAttr = some RELAY_STATE_UUID)
    (hperm : ext.gattPermitAuthorWrite pAttr.permissions = false) :
    RelayWriteAttrCB ext cccRet s connHandle pAttr pValue 1 0 method =
      if load s pAttr.pValue = notnot (pValue.headD 0) then
        { status := SUCCESS, state := s, calls := [] }
      else
        match s.relayServiceStateChangeCB with
        | some fn =>
          { status := SUCCESS,
            state := store (ext.invoke fn s) pAttr.pValue (notnot (pValue.headD 0)),
            calls := [ExtCall.relayServiceStateChangeCB fn s.relayState] }
        | none =>
          { status := SUCCESS,
            state := store s pAttr.pValue (notnot (pValue.headD 0)),
            calls := [] } := by
  simp only [RelayWriteAttrCB, hid, hperm]
  by_cases hc : load s pAttr.pValue = notnot (pValue.headD 0)
  · simp [hc]
  · cases hcb : s.relayServiceStateChangeCB <;> simp [hc]

/-- C1: for every payload byte `b` and every stored value, a structurally
valid remote write of `b` to the value attribute (recognised identity,
permissions not requiring authorization, offset 0, length 1) returns success
and stores `b != 0 ? 1 : 0`; a following read of the value attribute at offset
0 returns exactly that one normalized byte. -/
theorem write_then_read_normalized (ext : Ext) (cccRet : bStatus_t) (s : State)
    (connHandle method connHandle2 maxLen method2 : Nat) (pAttr : gattAttribute_t) (b : Nat)
    (hid : ext.utilExtractUuid16 pAttr = some RELAY_STATE_UUID)
    (hperm : ext.gattPermitAuthorWrite pAttr.permissions = false)
    (hval : pAttr.pValue = Ptr.relayState) :
    (RelayWriteAttrCB ext cccRet s connHandle pAttr [b] 1 0 method).status = SUCCESS ∧
    (RelayWriteAttrCB ext cccRet s connHandle pAttr [b] 1 0 method).state.relayState
      = (if b ≠ 0 then 1 else 0) ∧
    RelayReadAttrCB ext (RelayWriteAttrCB ext cccRet s connHandle pAttr [b] 1 0 method).state
        connHandle2 pAttr 0 maxLen method2
      = { status := SUCCESS, pLen := some 1, pValue0 := some (if b ≠ 0 then 1 else 0) } := by
  have hn : notnot ([b].headD 0) = (if b ≠ 0 then 1 else 0) := rfl
  rw [RelayWriteAttrCB_value ext cccRet s connHandle method pAttr [b] hid hperm, hval, hn]
  have hst : ∀ o : Outcome, o.state.relayState = (if b ≠ 0 then 1 else 0) →
      RelayReadAttrCB ext o.state connHandle2 pAttr 0 maxLen method2
        = { status := SUCCESS, pLen := some 1, pValue0 := some (if b ≠ 0 then 1 else 0) } := by
    intro o ho
    simp only [RelayReadAttrCB, hid, ho]
    simp
  by_cases hc : load s Ptr.relayState = (if b ≠ 0 then 1 else 0)
  · rw [if_pos hc]
    exact ⟨rfl, hc, hst _ hc⟩
  · rw [if_neg hc]
    cases s.relayServiceStateChangeCB with
    | none => exact ⟨rfl, rfl, hst _ rfl⟩
    | some fn => exact ⟨rfl, rfl, hst _ rfl⟩

/-- Witness for C1: the write of byte `0x05` to the value attribute in the
initial state. -/
theorem write_then_read_normalized_witness :
    (RelayWriteAttrCB sampleExt 0 (initState fun _ => 0) 1 sampleValueAttr [5] 1 0 0).status
      = SUCCESS ∧
    (RelayWriteAttrCB sampleExt 0 (initState fun _ => 0) 1 sampleValueAttr [5] 1 0 0).state.relayState
      = (if 5 ≠ 0 then 1 else 0) ∧
    RelayReadAttrCB sampleExt
        (RelayWriteAttrCB sampleExt 0 (initState fun _ => 0) 1 sampleValueAttr [5] 1 0 0).state
        2 sampleValueAttr 0 20 0
      = { status := SUCCESS, pLen := some 1, pValue0 := some (if 5 ≠ 0 then 1 else 0) } :=
  write_then_read_normalized sampleExt 0 (initState fun _ => 0) 1 0 2 20 0 sampleValueAttr 5
    (by decide) (by decide) rfl

/-! ## The stored value after `Relay_SetParameter` -/

/-- C2 (defect in the code): from the initial state (value 0) the single call
`Relay_SetParameter(RELAY_PARAM_STATE, 1, &v)` with `v = 5` leaves
`relayState = 5`, which is neither 0 nor 1: the accessor stores the raw byte,
without the `!!` normalization that `RelayWriteAttrCB` applies. -/
theorem setParameter_breaks_boolean_invariant :
    (Relay_SetParameter sampleExt SUCCESS (initState fun _ => 0)
        RELAY_PARAM_STATE 1 5).state.relayState = 5 ∧
    ¬ ((Relay_SetParameter sampleExt SUCCESS (initState fun _ => 0)
          RELAY_PARAM_STATE 1 5).state.relayState = 0 ∨
       (Relay_SetParameter sampleExt SUCCESS (initState fun _ => 0)
          RELAY_PARAM_STATE 1 5).state.relayState = 1) := by
  decide

/-- C3 (defect in the code): `Relay_SetParameter(RELAY_PARAM_STATE, 1, &v)`
with `v = 5` followed by `Relay_GetParameter(RELAY_PARAM_STATE, &out)` yields
`out = 5`, not `(5 != 0) ? 1 : 0 = 1`. -/
theorem setParameter_getParameter_raw_roundtrip :
    Relay_GetParameter
        (Relay_SetParameter sampleExt SUCCESS (initState fun _ => 0)
          RELAY_PARAM_STATE 1 5).state RELAY_PARAM_STATE
      = (SUCCESS, some 5) ∧
    (5 : Nat) ≠ (if (5 : Nat) ≠ 0 then 1 else 0) := by
  decide

/-! ## Offset and length validation -/

/-- C4 as stated fails: a write at offset 1 to an attribute whose permissions
require write authorization returns `ATT_ERR_INSUFFICIENT_AUTHOR`, and a write
at offset 1 to an attribute without an extractable identity returns
`ATT_ERR_INVALID_HANDLE`; neither is `ATT_ERR_ATTR_NOT_LONG`. -/
theorem write_positive_offset_not_always_not_long :
    (RelayWriteAttrCB sampleExt SUCCESS (initState fun _ => 0) 1 sampleAuthorAttr
        [1] 1 1 0).status = ATT_ERR_INSUFFICIENT_AUTHOR ∧
    (RelayWriteAttrCB sampleExt SUCCESS (initState fun _ => 0) 1 sampleOddAttr
        [1] 1 1 0).status = ATT_ERR_INVALID_HANDLE ∧
    (RelayWriteAttrCB sampleExt SUCCESS (initState fun _ => 0) 1 sampleAuthorAttr
        [1] 1 1 0).status ≠ ATT_ERR_ATTR_NOT_LONG ∧
    (RelayWriteAttrCB sampleExt SUCCESS (initState fun _ => 0) 1 sampleOddAttr
        [1] 1 1 0).status ≠ ATT_ERR_ATTR_NOT_LONG := by
  decide

/-- C4 (amended): for every offset `o > 0`, every read request fails with
`ATT_ERR_ATTR_NOT_LONG` whatever the attribute, and every write request fails
with `ATT_ERR_INVALID_HANDLE` when no identity can be extracted, else with
`ATT_ERR_INSUFFICIENT_AUTHOR` when the permissions require write
authorization, else with `ATT_ERR_ATTR_NOT_LONG`, whatever the payload and
length are. -/
theorem positive_offset_status (ext : Ext) (cccRet : bStatus_t) (s : State)
    (connHandle maxLen method : Nat) (rAttr wAttr : gattAttribute_t)
    (pValue : List Nat) (len offset : Nat) (ho : offset > 0) :
    (RelayReadAttrCB ext s connHandle rAttr offset maxLen method).status
      = ATT_ERR_ATTR_NOT_LONG ∧
    (RelayWriteAttrCB ext cccRet s connHandle wAttr pValue len offset method).status
      = (match ext.utilExtractUuid16 wAttr with
         | none => ATT_ERR_INVALID_HANDLE
         | some _ =>
           if ext.gattPermitAuthorWrite wAttr.permissions then ATT_ERR_INSUFFICIENT_AUTHOR
           else ATT_ERR_ATTR_NOT_LONG) := by
  constructor
  · simp [RelayReadAttrCB, ho]
  · unfold RelayWriteAttrCB
    cases ext.utilExtractUuid16 wAttr with
    | none => rfl
    | some uuid =>
      cases ext.gattPermitAuthorWrite wAttr.permissions with
      | true => simp
      | false => simp [ho]

/-- Witness for C4 (amended): offset 3, a read of an attribute without an
extractable identity and a two-byte write to the value attribute. -/
theorem positive_offset_status_witness :
    (RelayReadAttrCB sampleExt (initState fun _ => 0) 1 sampleOddAttr 3 20 0).status
      = ATT_ERR_ATTR_NOT_LONG ∧
    (RelayWriteAttrCB sampleExt SUCCESS (initState fun _ => 0) 1 sampleValueAttr
        [1, 2] 2 3 0).status = ATT_ERR_ATTR_NOT_LONG :=
  ⟨(positive_offset_status sampleExt SUCCESS (initState fun _ => 0) 1 20 0
      sampleOddAttr sampleValueAttr [1, 2] 2 3 (by decide)).1,
   (positive_offset_status sampleExt SUCCESS (initState fun _ => 0) 1 20 0
      sampleOddAttr sampleValueAttr [1, 2] 2 3 (by decide)).2.trans (by decide)⟩

/-- C5 as stated fails: a two-byte write to the value attribute at offset 1
returns `ATT_ERR_ATTR_NOT_LONG`, not `ATT_ERR_INVALID_VALUE_SIZE`. -/
theorem write_wrong_length_not_always_invalid_size :
    (2 : Nat) ≠ 1 ∧
    sampleExt.utilExtractUuid16 sampleValueAttr = some RELAY_STATE_UUID ∧
    (RelayWriteAttrCB sampleExt SUCCESS (initState fun _ => 0) 1 sampleValueAttr
        [1, 2] 2 1 0).status = ATT_ERR_ATTR_NOT_LONG ∧
    (RelayWriteAttrCB sampleExt SUCCESS (initState fun _ => 0) 1 sampleValueAttr
        [1, 2] 2 1 0).status ≠ ATT_ERR_INVALID_VALUE_SIZE := by
  decide

/-- C5 (amended): for every payload whose length is not 1 byte, a write
directed at the value attribute fails with `ATT_ERR_INVALID_VALUE_SIZE` when
the offset is 0 and the permissions do not require write authorization (with
`ATT_ERR_INSUFFICIENT_AUTHOR` when they do, else with `ATT_ERR_ATTR_NOT_LONG`
when the offset is positive); in every case it does not return success, leaves
the state unchanged and makes no call out of the module, so the state-change
callback is not invoked. -/
theorem write_wrong_length (ext : Ext) (cccRet : bStatus_t) (s : State)
    (connHandle method : Nat) (pAttr : gattAttribute_t) (pValue : List Nat)
    (len offset : Nat)
    (hid : ext.utilExtractUuid16 pAttr = some RELAY_STATE_UUID) (hlen : len ≠ 1) :
    (RelayWriteAttrCB ext cccRet s connHandle pAttr pValue len offset method).status
      = (if ext.gattPermitAuthorWrite pAttr.permissions then ATT_ERR_INSUFFICIENT_AUTHOR
         else if offset > 0 then ATT_ERR_ATTR_NOT_LONG
         else ATT_ERR_INVALID_VALUE_SIZE) ∧
    (RelayWriteAttrCB ext cccRet s connHandle pAttr pValue len offset method).status
      ≠ SUCCESS ∧
    (RelayWriteAttrCB ext cccRet s connHandle pAttr pValue len offset method).state = s ∧
    (RelayWriteAttrCB ext cccRet s connHandle pAttr pValue len offset method).calls = [] := by
  simp only [RelayWriteAttrCB, hid]
  cases ext.gattPermitAuthorWrite pAttr.permissions with
  | true => simp [ATT_ERR_INSUFFICIENT_AUTHOR, SUCCESS]
  | false =>
    by_cases ho : offset > 0
    · simp [ho, ATT_ERR_ATTR_NOT_LONG, SUCCESS]
    · simp [ho, hlen, ATT_ERR_INVALID_VALUE_SIZE, SUCCESS]

/-- Witness for C5 (amended): an empty payload written to the value attribute
at offset 0. -/
theorem write_wrong_length_witness :
    (RelayWriteAttrCB sampleExt SUCCESS (initState fun _ => 0) 1 sampleValueAttr
        [] 0 0 0).status = ATT_ERR_INVALID_VALUE_SIZE ∧
    (RelayWriteAttrCB sampleExt SUCCESS (initState fun _ => 0) 1 sampleValueAttr
        [] 0 0 0).status ≠ SUCCESS ∧
    (RelayWriteAttrCB sampleExt SUCCESS (initState fun _ => 0) 1 sampleValueAttr
        [] 0 0 0).state = (initState fun _ => 0) ∧
    (RelayWriteAttrCB sampleExt SUCCESS (initState fun _ => 0) 1 sampleValueAttr
        [] 0 0 0).calls = [] :=
  ⟨(write_wrong_length sampleExt SUCCESS (initState fun _ => 0) 1 0 sampleValueAttr
      [] 0 0 (by decide) (by decide)).1.trans (by decide),
   (write_wrong_length sampleExt SUCCESS (initState fun _ => 0) 1 0 sampleValueAttr
      [] 0 0 (by decide) (by decide)).2⟩

/-! ## State-change callback and notification broadcast -/

/-- C6 as stated fails: in the scenario (value 0, connection subscribed,
callback installed) the remote write of `0x05` makes `RelayWriteAttrCB` call
the callback once and nothing else; it makes no notification broadcast, so
their number is 0 and not 1. -/
theorem scenario_first_write_no_broadcast :
    scenarioSubscribe.status = SUCCESS ∧
    scenarioSubscribe.state.relayState = 0 ∧
    scenarioFirstWrite.calls = [ExtCall.relayServiceStateChangeCB 7 0] ∧
    notifyCount scenarioFirstWrite.calls = 0 ∧
    notifyCount scenarioFirstWrite.calls ≠ 1 := by
  decide

/-- C6 (amended): starting from stored value 0 with a connection subscribed and
a callback installed, a remote write of byte `0x05` to the value attribute
returns success, makes the stored value 1 and invokes the state-change
callback exactly once, and `RelayWriteAttrCB` itself makes no notification
broadcast; a subsequent remote write of byte `0x01` leaves the stored value 1,
invokes no callback and makes no notification broadcast. -/
theorem remote_write_scenario (ext : Ext) (cccRet : bStatus_t) (s : State)
    (fn connA method cfgLen : Nat) (valueAttr cccAttr : gattAttribute_t) (cfg : List Nat)
    (hs : s.relayState = 0) (hcb : s.relayServiceStateChangeCB = some fn)
    (hid : ext.utilExtractUuid16 valueAttr = some RELAY_STATE_UUID)
    (hperm : ext.gattPermitAuthorWrite valueAttr.permissions = false)
    (hval : valueAttr.pValue = Ptr.relayState)
    (hccc : ext.utilExtractUuid16 cccAttr = some GATT_CLIENT_CHAR_CFG_UUID)
    (hcccperm : ext.gattPermitAuthorWrite cccAttr.permissions = false) :
    let r0 := RelayWriteAttrCB ext cccRet s connA cccAttr cfg cfgLen 0 method
    let r1 := RelayWriteAttrCB ext cccRet r0.state connA valueAttr [0x05] 1 0 method
    let r2 := RelayWriteAttrCB ext cccRet r1.state connA valueAttr [0x01] 1 0 method
    r0.status = cccRet ∧ r0.state = s ∧
    r1.status = SUCCESS ∧ r1.state.relayState = 1 ∧
    r1.calls = [ExtCall.relayServiceStateChangeCB fn 0] ∧
    callbackCount r1.calls = 1 ∧ notifyCount r1.calls = 0 ∧
    r2.status = SUCCESS ∧ r2.state.relayState = 1 ∧ r2.calls = [] ∧
    callbackCount r2.calls = 0 ∧ notifyCount r2.calls = 0 := by
  intro r0 r1 r2
  have h0 : r0 =
      { status := cccRet,
        state := s,
        calls := [ExtCall.GATTServApp_ProcessCCCWriteReq connA cfg cfgLen 0
                    GATT_CLIENT_CFG_NOTIFY] } := by
    simp [r0, RelayWriteAttrCB, hccc, hcccperm, GATT_CLIENT_CHAR_CFG_UUID, RELAY_STATE_UUID]
  have h1 : r1 =
      { status := SUCCESS,
        state := store (ext.invoke fn s) Ptr.relayState 1,
        calls := [ExtCall.relayServiceStateChangeCB fn 0] } := by
    simp only [r1, h0]
    rw [RelayWriteAttrCB_value ext cccRet s connA method valueAttr [0x05] hid hperm, hval]
    simp [load, hs, notnot, hcb]
  have h2 : r2 = { status := SUCCESS, state := r1.state, calls := [] } := by
    simp only [r2]
    rw [RelayWriteAttrCB_value ext cccRet r1.state connA method valueAttr [0x01] hid hperm,
      hval, h1]
    simp [load, store, notnot]
  rw [h2, h1, h0]
  simp [store, callbackCount, notifyCount]

/-- Witness for C6 (amended): the scenario with the sample attributes, the
callback at address 7 and connection 1. -/
theorem remote_write_scenario_witness :
    scenarioFirstWrite.status = SUCCESS ∧ scenarioFirstWrite.state.relayState = 1 ∧
    callbackCount scenarioFirstWrite.calls = 1 ∧ notifyCount scenarioFirstWrite.calls = 0 ∧
    scenarioSecondWrite.state.relayState = 1 ∧ scenarioSecondWrite.calls = [] :=
  have h := remote_write_scenario sampleExt SUCCESS scenarioStart 7 1 0 2
    sampleValueAttr sampleCccAttr [0x01, 0x00] rfl rfl (by decide) (by decide) rfl
    (by decide) (by decide)
  ⟨h.2.2.1, h.2.2.2.1, h.2.2.2.2.2.1, h.2.2.2.2.2.2.1, h.2.2.2.2.2.2.2.2.1,
    h.2.2.2.2.2.2.2.2.2.1⟩

/-- On a stored value that is 0 or 1, a structurally valid write of `b` to the
value attribute with a callback installed invokes it once when the logical
value changes and not at all otherwise. -/
theorem callback_count_on_boolean_state (ext : Ext) (cccRet : bStatus_t) (s : State)
    (fn connHandle method : Nat) (pAttr : gattAttribute_t) (b : Nat)
    (hid : ext.utilExtractUuid16 pAttr = some RELAY_STATE_UUID)
    (hperm : ext.gattPermitAuthorWrite pAttr.permissions = false)
    (hval : pAttr.pValue = Ptr.relayState)
    (hcb : s.relayServiceStateChangeCB = some fn)
    (hs : s.relayState = 0 ∨ s.relayState = 1) :
    callbackCount (RelayWriteAttrCB ext cccRet s connHandle pAttr [b] 1 0 method).calls
      = if (b ≠ 0 ↔ s.relayState ≠ 0) then 0 else 1 := by
  rw [RelayWriteAttrCB_value ext cccRet s connHandle method pAttr [b] hid hperm, hval]
  by_cases hb : b = 0 <;> rcases hs with h | h <;>
    simp [load, notnot, hb, h, hcb, callbackCount]

/-- C7 (defect in the code): after the application has stored 5 through
`Relay_SetParameter`, a structurally valid remote write of byte 1 to the value
attribute invokes the installed callback once although the logical value is
the same before and after (`5 != 0` and `1 != 0`); so does a write of byte 5. -/
theorem callback_fires_without_logical_change :
    stateAfterSetFive.relayState = 5 ∧
    stateAfterSetFive.relayServiceStateChangeCB = some 7 ∧
    ((1 : Nat) ≠ 0 ↔ stateAfterSetFive.relayState ≠ 0) ∧
    callbackCount
      (RelayWriteAttrCB sampleExt SUCCESS stateAfterSetFive 1 sampleValueAttr [1] 1 0 0).calls
      = 1 ∧
    callbackCount
      (RelayWriteAttrCB sampleExt SUCCESS stateAfterSetFive 1 sampleValueAttr [5] 1 0 0).calls
      = 1 := by
  decide

/-- C8 (defect in the code): with stored value 1,
`Relay_SetParameter(RELAY_PARAM_STATE, 1, &v)` with `v = 5` makes one
notification broadcast (carrying byte 5) although the logical value is
unchanged (`5 != 0` and `1 != 0`). -/
theorem setParameter_notifies_without_logical_change :
    stateAfterSetOne.relayState = 1 ∧
    ((5 : Nat) ≠ 0 ↔ stateAfterSetOne.relayState ≠ 0) ∧
    (Relay_SetParameter sampleExt SUCCESS stateAfterSetOne RELAY_PARAM_STATE 1 5).calls
      = [ExtCall.GATTServApp_ProcessCharCfg 5 true] ∧
    notifyCount
      (Relay_SetParameter sampleExt SUCCESS stateAfterSetOne RELAY_PARAM_STATE 1 5).calls
      = 1 := by
  decide

/-! ## Accessor misuse and broadcast status -/

/-- C9: `Relay_SetParameter` with any parameter id other than
`RELAY_PARAM_STATE` returns `INVALIDPARAMETER`, and with `RELAY_PARAM_STATE`
and any length other than 1 returns `bleInvalidRange`; in both cases the state
is unchanged and no call (so no notification broadcast) is made.
`Relay_GetParameter` with any parameter id other than `RELAY_PARAM_STATE`
returns `INVALIDPARAMETER` and does not write the output. -/
theorem accessor_misuse_rejected (ext : Ext) (notifyRet : bStatus_t) (s : State)
    (param len anyLen value : Nat)
    (hparam : param ≠ RELAY_PARAM_STATE) (hlen : len ≠ 1) :
    Relay_SetParameter ext notifyRet s param anyLen value
      = { status := INVALIDPARAMETER, state := s, calls := [] } ∧
    Relay_SetParameter ext notifyRet s RELAY_PARAM_STATE len value
      = { status := bleInvalidRange, state := s, calls := [] } ∧
    Relay_GetParameter s param = (INVALIDPARAMETER, none) := by
  simp [Relay_SetParameter, Relay_GetParameter, hparam, hlen]

/-- Witness for C9: parameter id 3 and length 2. -/
theorem accessor_misuse_rejected_witness :
    Relay_SetParameter sampleExt 0x15 stateAfterSetOne 3 1 0
      = { status := INVALIDPARAMETER, state := stateAfterSetOne, calls := [] } ∧
    Relay_SetParameter sampleExt 0x15 stateAfterSetOne RELAY_PARAM_STATE 2 0
      = { status := bleInvalidRange, state := stateAfterSetOne, calls := [] } ∧
    Relay_GetParameter stateAfterSetOne 3 = (INVALIDPARAMETER, none) :=
  accessor_misuse_rejected sampleExt 0x15 stateAfterSetOne 3 2 1 0 (by decide) (by decide)

/-- C10 as stated fails: when the broadcast routine returns `0x15`
(`bleNoResources`), the state-changing call
`Relay_SetParameter(RELAY_PARAM_STATE, 1, &v)` with `v = 1` on stored value 0
returns `0x15` to its caller, not success. -/
theorem setParameter_surfaces_broadcast_failure :
    (1 : Nat) ≠ (initState fun _ => 0).relayState ∧
    (Relay_SetParameter sampleExt 0x15 (initState fun _ => 0)
        RELAY_PARAM_STATE 1 1).status = 0x15 ∧
    (Relay_SetParameter sampleExt 0x15 (initState fun _ => 0)
        RELAY_PARAM_STATE 1 1).status ≠ SUCCESS := by
  decide

/-- C10 (amended): for every status returned by the broadcast routine, a valid
remote value write returns success (it never calls the broadcast routine),
while `Relay_SetParameter(RELAY_PARAM_STATE, 1, &v)` with `v` different from
the stored value returns to its caller exactly the status of the broadcast
routine. -/
theorem broadcast_status_propagation (ext : Ext) (cccRet notifyRet : bStatus_t) (s : State)
    (connHandle method : Nat) (pAttr : gattAttribute_t) (b v : Nat)
    (hid : ext.utilExtractUuid16 pAttr = some RELAY_STATE_UUID)
    (hperm : ext.gattPermitAuthorWrite pAttr.permissions = false)
    (hv : v ≠ s.relayState) :
    (RelayWriteAttrCB ext cccRet s connHandle pAttr [b] 1 0 method).status = SUCCESS ∧
    notifyCount (RelayWriteAttrCB ext cccRet s connHandle pAttr [b] 1 0 method).calls = 0 ∧
    (Relay_SetParameter ext notifyRet s RELAY_PARAM_STATE 1 v).status = notifyRet ∧
    (Relay_SetParameter ext notifyRet s RELAY_PARAM_STATE 1 v).calls
      = [ExtCall.GATTServApp_ProcessCharCfg v ext.NOTIFY_AUTH] := by
  have hset1 : (Relay_SetParameter ext notifyRet s RELAY_PARAM_STATE 1 v).status
      = notifyRet := by
    simp [Relay_SetParameter, hv]
  have hset2 : (Relay_SetParameter ext notifyRet s RELAY_PARAM_STATE 1 v).calls
      = [ExtCall.GATTServApp_ProcessCharCfg v ext.NOTIFY_AUTH] := by
    simp [Relay_SetParameter, hv]
  rw [RelayWriteAttrCB_value ext cccRet s connHandle method pAttr [b] hid hperm]
  by_cases hc : load s pAttr.pValue = notnot ([b].headD 0)
  · rw [if_pos hc]
    exact ⟨rfl, rfl, hset1, hset2⟩
  · rw [if_neg hc]
    cases s.relayServiceStateChangeCB with
    | none => exact ⟨rfl, rfl, hset1, hset2⟩
    | some fn => exact ⟨rfl, rfl, hset1, hset2⟩

/-- Witness for C10 (amended): stored value 0, a remote write of `0x05` and a
local set of 1 while the broadcast routine returns `0x15`. -/
theorem broadcast_status_propagation_witness :
    (RelayWriteAttrCB sampleExt SUCCESS scenarioStart 1 sampleValueAttr [5] 1 0 0).status
      = SUCCESS ∧
    notifyCount
      (RelayWriteAttrCB sampleExt SUCCESS scenarioStart 1 sampleValueAttr [5] 1 0 0).calls = 0 ∧
    (Relay_SetParameter sampleExt 0x15 scenarioStart RELAY_PARAM_STATE 1 1).status = 0x15 ∧
    (Relay_SetParameter sampleExt 0x15 scenarioStart RELAY_PARAM_STATE 1 1).calls
      = [ExtCall.GATTServApp_ProcessCharCfg 1 sampleExt.NOTIFY_AUTH] :=
  broadcast_status_propagation sampleExt SUCCESS 0x15 scenarioStart 1 0 sampleValueAttr 5 1
    (by decide) (by decide) (by decide)

/-! ## Read contract and unrecognized identities -/

/-- C11 as stated fails: at offset 0 a read of an attribute from which no
identity can be extracted (so its identity is not the relay-state one)
returns `ATT_ERR_INVALID_HANDLE` with length 0, not
`ATT_ERR_ATTR_NOT_FOUND`. -/
theorem read_without_identity_is_invalid_handle :
    sampleExt.utilExtractUuid16 sampleOddAttr ≠ some RELAY_STATE_UUID ∧
    RelayReadAttrCB sampleExt (initState fun _ => 0) 1 sampleOddAttr 0 20 0
      = { status := ATT_ERR_INVALID_HANDLE, pLen := some 0, pValue0 := none } ∧
    (RelayReadAttrCB sampleExt (initState fun _ => 0) 1 sampleOddAttr 0 20 0).status
      ≠ ATT_ERR_ATTR_NOT_FOUND := by
  decide

/-- C11 (amended): at offset 0 `RelayReadAttrCB` fails with
`ATT_ERR_ATTR_NOT_FOUND` for every attribute whose extracted identity is not
the relay-state value identity, fails with `ATT_ERR_INVALID_HANDLE` (length 0)
for every attribute from which no identity can be extracted, and for the
relay-state value identity returns success with length exactly 1 and the byte
equal to the current stored value; in every case, whatever the out-parameters
point at, the stored value and the installed callback are left unchanged. -/
theorem read_contract (ext : Ext) (s : State) (connHandle maxLen method uuid lenAddr : Nat)
    (otherAttr valueAttr oddAttr anyAttr : gattAttribute_t) (dst : Ptr) (offset : Nat)
    (hother : ext.utilExtractUuid16 otherAttr = some uuid) (hne : uuid ≠ RELAY_STATE_UUID)
    (hvalue : ext.utilExtractUuid16 valueAttr = some RELAY_STATE_UUID)
    (hodd : ext.utilExtractUuid16 oddAttr = none) :
    RelayReadAttrCB ext s connHandle otherAttr 0 maxLen method
      = { status := ATT_ERR_ATTR_NOT_FOUND, pLen := none, pValue0 := none } ∧
    RelayReadAttrCB ext s connHandle oddAttr 0 maxLen method
      = { status := ATT_ERR_INVALID_HANDLE, pLen := some 0, pValue0 := none } ∧
    RelayReadAttrCB ext s connHandle valueAttr 0 maxLen method
      = { status := SUCCESS, pLen := some 1, pValue0 := some s.relayState } ∧
    (RelayReadAttrCB_effect ext s connHandle anyAttr dst lenAddr offset maxLen
        method).relayState = s.relayState ∧
    (RelayReadAttrCB_effect ext s connHandle anyAttr dst lenAddr offset maxLen
        method).relayServiceStateChangeCB = s.relayServiceStateChangeCB := by
  refine ⟨?_, ?_, ?_, ?_, ?_⟩
  · simp [RelayReadAttrCB, hother, hne]
  · simp [RelayReadAttrCB, hodd]
  · simp [RelayReadAttrCB, hvalue]
  · unfold RelayReadAttrCB_effect
    by_cases ho : offset > 0
    · rw [if_pos ho]
    · rw [if_neg ho]
      cases ext.utilExtractUuid16 anyAttr with
      | none => rfl
      | some u =>
        by_cases hu : u = RELAY_STATE_UUID
        · simp only [hu, if_true]
          cases dst <;> rfl
        · simp only [hu, if_false]
  · unfold RelayReadAttrCB_effect
    by_cases ho : offset > 0
    · rw [if_pos ho]
    · rw [if_neg ho]
      cases ext.utilExtractUuid16 anyAttr with
      | none => rfl
      | some u =>
        by_cases hu : u = RELAY_STATE_UUID
        · simp only [hu, if_true]
          cases dst <;> rfl
        · simp only [hu, if_false]

/-- Witness for C11 (amended): reads of the user description attribute, of an
attribute without extractable identity and of the value attribute, the last
one with `pValue` pointing at `relayState` itself. -/
theorem read_contract_witness :
    RelayReadAttrCB sampleExt stateAfterSetOne 1 sampleUserDescAttr 0 20 0
      = { status := ATT_ERR_ATTR_NOT_FOUND, pLen := none, pValue0 := none } ∧
    RelayReadAttrCB sampleExt stateAfterSetOne 1 sampleOddAttr 0 20 0
      = { status := ATT_ERR_INVALID_HANDLE, pLen := some 0, pValue0 := none } ∧
    RelayReadAttrCB sampleExt stateAfterSetOne 1 sampleValueAttr 0 20 0
      = { status := SUCCESS, pLen := some 1, pValue0 := some stateAfterSetOne.relayState } ∧
    (RelayReadAttrCB_effect sampleExt stateAfterSetOne 1 sampleValueAttr Ptr.relayState 4
        0 20 0).relayState = stateAfterSetOne.relayState ∧
    (RelayReadAttrCB_effect sampleExt stateAfterSetOne 1 sampleValueAttr Ptr.relayState 4
        0 20 0).relayServiceStateChangeCB = stateAfterSetOne.relayServiceStateChangeCB :=
  read_contract sampleExt stateAfterSetOne 1 20 0 0x2901 4 sampleUserDescAttr
    sampleValueAttr sampleOddAttr sampleValueAttr Ptr.relayState 0
    (by decide) (by decide) (by decide) (by decide)

/-- C12 as stated fails: a one-byte write at offset 0 to the user description
attribute, whose identity `0x2901` is neither the relay-state nor the client
characteristic configuration identity, returns `ATT_ERR_ATTR_NOT_FOUND`, not
`ATT_ERR_INVALID_HANDLE`. -/
theorem write_unknown_identity_is_not_found :
    sampleExt.utilExtractUuid16 sampleUserDescAttr ≠ some RELAY_STATE_UUID ∧
    sampleExt.utilExtractUuid16 sampleUserDescAttr ≠ some GATT_CLIENT_CHAR_CFG_UUID ∧
    (RelayWriteAttrCB sampleExt SUCCESS (initState fun _ => 0) 1 sampleUserDescAttr
        [1] 1 0 0).status = ATT_ERR_ATTR_NOT_FOUND ∧
    (RelayWriteAttrCB sampleExt SUCCESS (initState fun _ => 0) 1 sampleUserDescAttr
        [1] 1 0 0).status ≠ ATT_ERR_INVALID_HANDLE := by
  decide

/-- C12 (amended): a write request on an attribute from which no identity can
be extracted fails with `ATT_ERR_INVALID_HANDLE` for every payload, length and
offset; a write request whose extracted identity is neither the relay-state
value identity nor the client-subscription-configuration identity fails with
`ATT_ERR_INSUFFICIENT_AUTHOR` when the permissions require write
authorization, else with `ATT_ERR_ATTR_NOT_LONG` when the offset is positive,
else with `ATT_ERR_ATTR_NOT_FOUND`, for every payload and length. -/
theorem write_unrecognized_identity (ext : Ext) (cccRet : bStatus_t) (s : State)
    (connHandle method uuid : Nat) (oddAttr otherAttr : gattAttribute_t)
    (pValue : List Nat) (len offset : Nat)
    (hodd : ext.utilExtractUuid16 oddAttr = none)
    (hother : ext.utilExtractUuid16 otherAttr = some uuid)
    (hne1 : uuid ≠ RELAY_STATE_UUID) (hne2 : uuid ≠ GATT_CLIENT_CHAR_CFG_UUID) :
    (RelayWriteAttrCB ext cccRet s connHandle oddAttr pValue len offset method).status
      = ATT_ERR_INVALID_HANDLE ∧
    (RelayWriteAttrCB ext cccRet s connHandle otherAttr pValue len offset method).status
      = (if ext.gattPermitAuthorWrite otherAttr.permissions then ATT_ERR_INSUFFICIENT_AUTHOR
         else if offset > 0 then ATT_ERR_ATTR_NOT_LONG
         else ATT_ERR_ATTR_NOT_FOUND) := by
  constructor
  · simp [RelayWriteAttrCB, hodd]
  · simp only [RelayWriteAttrCB, hother]
    cases ext.gattPermitAuthorWrite otherAttr.permissions with
    | true => simp
    | false =>
      by_cases ho : offset > 0
      · simp [ho]
      · simp [ho, hne1, hne2]

/-- Witness for C12 (amended): a two-byte write at offset 0 to an attribute
without extractable identity and to the user description attribute. -/
theorem write_unrecognized_identity_witness :
    (RelayWriteAttrCB sampleExt SUCCESS (initState fun _ => 0) 1 sampleOddAttr
        [1, 2] 2 0 0).status = ATT_ERR_INVALID_HANDLE ∧
    (RelayWriteAttrCB sampleExt SUCCESS (initState fun _ => 0) 1 sampleUserDescAttr
        [1, 2] 2 0 0).status = ATT_ERR_ATTR_NOT_FOUND :=
  ⟨(write_unrecognized_identity sampleExt SUCCESS (initState fun _ => 0) 1 0 0x2901
      sampleOddAttr sampleUserDescAttr [1, 2] 2 0
      (by decide) (by decide) (by decide) (by decide)).1,
   (write_unrecognized_identity sampleExt SUCCESS (initState fun _ => 0) 1 0 0x2901
      sampleOddAttr sampleUserDescAttr [1, 2] 2 0
      (by decide) (by decide) (by decide) (by decide)).2.trans (by decide)⟩

/-! ## Authorization, failed writes and the subscription attribute -/

/-- The status `RelayWriteAttrCB` returns, for every request. -/
theorem RelayWriteAttrCB_status (ext : Ext) (cccRet : bStatus_t) (s : State)
    (connHandle method : Nat) (pAttr : gattAttribute_t) (pValue : List Nat)
    (len offset : Nat) :
    (RelayWriteAttrCB ext cccRet s connHandle pAttr pValue len offset method).status
      = (match ext.utilExtractUuid16 pAttr with
         | none => ATT_ERR_INVALID_HANDLE
         | some uuid =>
           if ext.gattPermitAuthorWrite pAttr.permissions then ATT_ERR_INSUFFICIENT_AUTHOR
           else if offset > 0 then ATT_ERR_ATTR_NOT_LONG
           else if uuid = RELAY_STATE_UUID then
             (if len ≠ 1 then ATT_ERR_INVALID_VALUE_SIZE else SUCCESS)
           else if uuid = GATT_CLIENT_CHAR_CFG_UUID then cccRet
           else ATT_ERR_ATTR_NOT_FOUND) := by
  unfold RelayWriteAttrCB
  cases ext.utilExtractUuid16 pAttr with
  | none => rfl
  | some u =>
    cases ext.gattPermitAuthorWrite pAttr.permissions with
    | true => rfl
    | false =>
      simp only [Bool.false_eq_true, if_false]
      by_cases ho : offset > 0
      · simp only [ho, if_true]
      · simp only [ho, if_false]
        by_cases hu : u = RELAY_STATE_UUID
        · simp only [hu, if_true]
          by_cases hl : len = 1
          · have h1 : (if len ≠ 1 then ATT_ERR_INVALID_VALUE_SIZE else SUCCESS) = SUCCESS := by
              simp [hl]
            simp only [h1, if_true]
            by_cases hc : load s pAttr.pValue ≠ notnot (pValue.headD 0)
            · rw [if_pos hc]
              cases s.relayServiceStateChangeCB <;> rfl
            · rw [if_neg hc]
          · have h1 : (if len ≠ 1 then ATT_ERR_INVALID_VALUE_SIZE else SUCCESS)
                = ATT_ERR_INVALID_VALUE_SIZE := by
              simp [hl]
            have h2 : ¬ (ATT_ERR_INVALID_VALUE_SIZE = SUCCESS) := by decide
            simp only [h1, h2, if_false]
        · simp only [hu, if_false]
          by_cases hu2 : u = GATT_CLIENT_CHAR_CFG_UUID
          · simp only [hu2, if_true]
          · simp only [hu2, if_false]

/-- C13: a write request on an attribute with an extractable identity whose
permissions require write authorization fails with
`ATT_ERR_INSUFFICIENT_AUTHOR` for every offset, length and payload, leaves the
state unchanged and makes no call, so the callback is not invoked; when the
permissions do not require write authorization, the write returns
`ATT_ERR_INSUFFICIENT_AUTHOR` only as the status handed back by
`GATTServApp_ProcessCCCWriteReq` for the client-subscription-configuration
attribute, never from the module's own checks. -/
theorem write_authorization (ext : Ext) (cccRet : bStatus_t) (s : State)
    (connHandle method uuid : Nat) (authorAttr plainAttr : gattAttribute_t)
    (pValue : List Nat) (len offset : Nat)
    (hid : ext.utilExtractUuid16 authorAttr = some uuid)
    (hauth : ext.gattPermitAuthorWrite authorAttr.permissions = true)
    (hplain : ext.gattPermitAuthorWrite plainAttr.permissions = false) :
    RelayWriteAttrCB ext cccRet s connHandle authorAttr pValue len offset method
      = { status := ATT_ERR_INSUFFICIENT_AUTHOR, state := s, calls := [] } ∧
    ((RelayWriteAttrCB ext cccRet s connHandle plainAttr pValue len offset method).status
        = ATT_ERR_INSUFFICIENT_AUTHOR →
      ext.utilExtractUuid16 plainAttr = some GATT_CLIENT_CHAR_CFG_UUID ∧ offset = 0 ∧
      cccRet = ATT_ERR_INSUFFICIENT_AUTHOR) := by
  constructor
  · simp [RelayWriteAttrCB, hid, hauth]
  · intro h
    rw [RelayWriteAttrCB_status] at h
    cases hx : ext.utilExtractUuid16 plainAttr with
    | none =>
      rw [hx] at h
      exact absurd h (show ATT_ERR_INVALID_HANDLE ≠ ATT_ERR_INSUFFICIENT_AUTHOR by decide)
    | some u =>
      rw [hx] at h
      simp only [hplain, Bool.false_eq_true, if_false] at h
      split_ifs at h with ho hu hl hu2
      · exact absurd h (by decide)
      · exact absurd h (by decide)
      · exact absurd h (by decide)
      · exact ⟨by rw [hu2], by omega, h⟩
      · exact absurd h (by decide)

/-- Witness for C13: two-byte writes at offset 3, to an attribute whose
permissions carry the write-authorization bit and to the value attribute. -/
theorem write_authorization_witness :
    RelayWriteAttrCB sampleExt SUCCESS stateAfterSetOne 1 sampleAuthorAttr [1, 2] 2 3 0
      = { status := ATT_ERR_INSUFFICIENT_AUTHOR, state := stateAfterSetOne, calls := [] } ∧
    (RelayWriteAttrCB sampleExt SUCCESS stateAfterSetOne 1 sampleValueAttr [1, 2] 2 3 0).status
      ≠ ATT_ERR_INSUFFICIENT_AUTHOR :=
  ⟨(write_authorization sampleExt SUCCESS stateAfterSetOne 1 0 RELAY_STATE_UUID
      sampleAuthorAttr sampleValueAttr [1, 2] 2 3 (by decide) (by decide) (by decide)).1,
   fun h => absurd
     ((write_authorization sampleExt SUCCESS stateAfterSetOne 1 0 RELAY_STATE_UUID
        sampleAuthorAttr sampleValueAttr [1, 2] 2 3 (by decide) (by decide)
        (by decide)).2 h).2.1 (by decide)⟩

/-- C14: every write request that does not return success leaves the state,
and so the stored value, unchanged and does not invoke the state-change
callback, whichever of the identity, authorization, offset and length checks
(or the subscription routine) produced the status. -/
theorem failed_write_changes_nothing (ext : Ext) (cccRet : bStatus_t) (s : State)
    (connHandle method : Nat) (pAttr : gattAttribute_t) (pValue : List Nat)
    (len offset : Nat)
    (hfail : (RelayWriteAttrCB ext cccRet s connHandle pAttr pValue len offset method).status
      ≠ SUCCESS) :
    (RelayWriteAttrCB ext cccRet s connHandle pAttr pValue len offset method).state = s ∧
    (RelayWriteAttrCB ext cccRet s connHandle pAttr pValue len offset method).state.relayState
      = s.relayState ∧
    callbackCount
      (RelayWriteAttrCB ext cccRet s connHandle pAttr pValue len offset method).calls = 0 := by
  have key : (RelayWriteAttrCB ext cccRet s connHandle pAttr pValue len offset method).state = s ∧
      callbackCount
        (RelayWriteAttrCB ext cccRet s connHandle pAttr pValue len offset method).calls = 0 := by
    rw [RelayWriteAttrCB_status] at hfail
    unfold RelayWriteAttrCB
    cases hx : ext.utilExtractUuid16 pAttr with
    | none => exact ⟨rfl, rfl⟩
    | some u =>
      rw [hx] at hfail
      cases hp : ext.gattPermitAuthorWrite pAttr.permissions with
      | true => exact ⟨rfl, rfl⟩
      | false =>
        simp only [hp, Bool.false_eq_true, if_false] at hfail ⊢
        by_cases ho : offset > 0
        · simp only [ho, if_true]
          constructor <;> first | rfl | trivial
        · simp only [ho, if_false] at hfail ⊢
          by_cases hu : u = RELAY_STATE_UUID
          · simp only [hu, if_true] at hfail ⊢
            by_cases hl : len = 1
            · exact absurd (by simp [hl]) hfail
            · have h1 : (if len ≠ 1 then ATT_ERR_INVALID_VALUE_SIZE else SUCCESS)
                  = ATT_ERR_INVALID_VALUE_SIZE := by
                simp [hl]
              have h2 : ¬ (ATT_ERR_INVALID_VALUE_SIZE = SUCCESS) := by decide
              simp only [h1, h2, if_false]
              constructor <;> first | rfl | trivial
          · simp only [hu, if_false]
            by_cases hu2 : u = GATT_CLIENT_CHAR_CFG_UUID
            · simp only [hu2, if_true]
              constructor <;> first | rfl | trivial
            · simp only [hu2, if_false]
              constructor <;> first | rfl | trivial
  exact ⟨key.1, by rw [key.1], key.2⟩

/-- Witness for C14: a subscription write that the stack rejects with status
`0x03`, on a state with a callback installed. -/
theorem failed_write_changes_nothing_witness :
    (RelayWriteAttrCB sampleExt 0x03 scenarioStart 1 sampleCccAttr [0x07, 0x00] 2 0 0).state
      = scenarioStart ∧
    (RelayWriteAttrCB sampleExt 0x03 scenarioStart 1 sampleCccAttr
        [0x07, 0x00] 2 0 0).state.relayState = scenarioStart.relayState ∧
    callbackCount
      (RelayWriteAttrCB sampleExt 0x03 scenarioStart 1 sampleCccAttr [0x07, 0x00] 2 0 0).calls
      = 0 :=
  failed_write_changes_nothing sampleExt 0x03 scenarioStart 1 0 sampleCccAttr
    [0x07, 0x00] 2 0 (by decide)

/-- C15: a write directed at the client-subscription-configuration attribute
at offset 0, with permissions not requiring write authorization, calls
`GATTServApp_ProcessCCCWriteReq` once with the request's connection, payload
and length and the notify flag, returns exactly its status and does nothing
else: the state is unchanged, the callback is not invoked and no notification
broadcast is made. -/
theorem subscription_write_delegates (ext : Ext) (cccRet : bStatus_t) (s : State)
    (connHandle method : Nat) (pAttr : gattAttribute_t) (pValue : List Nat) (len : Nat)
    (hccc : ext.utilExtractUuid16 pAttr = some GATT_CLIENT_CHAR_CFG_UUID)
    (hperm : ext.gattPermitAuthorWrite pAttr.permissions = false) :
    RelayWriteAttrCB ext cccRet s connHandle pAttr pValue len 0 method
      = { status := cccRet,
          state := s,
          calls := [ExtCall.GATTServApp_ProcessCCCWriteReq connHandle pValue len 0
                      GATT_CLIENT_CFG_NOTIFY] } ∧
    (RelayWriteAttrCB ext cccRet s connHandle pAttr pValue len 0 method).state.relayState
      = s.relayState ∧
    callbackCount (RelayWriteAttrCB ext cccRet s connHandle pAttr pValue len 0 method).calls
      = 0 ∧
    notifyCount (RelayWriteAttrCB ext cccRet s connHandle pAttr pValue len 0 method).calls
      = 0 := by
  have h : RelayWriteAttrCB ext cccRet s connHandle pAttr pValue len 0 method
      = { status := cccRet,
          state := s,
          calls := [ExtCall.GATTServApp_ProcessCCCWriteReq connHandle pValue len 0
                      GATT_CLIENT_CFG_NOTIFY] } := by
    simp [RelayWriteAttrCB, hccc, hperm, GATT_CLIENT_CHAR_CFG_UUID, RELAY_STATE_UUID]
  rw [h]
  exact ⟨rfl, rfl, rfl, rfl⟩

/-- Witness for C15: connection 1 writes `01 00` to the sample configuration
attribute and the stack answers `0x03`. -/
theorem subscription_write_delegates_witness :
    RelayWriteAttrCB sampleExt 0x03 scenarioStart 1 sampleCccAttr [0x01, 0x00] 2 0 0
      = { status := 0x03,
          state := scenarioStart,
          calls := [ExtCall.GATTServApp_ProcessCCCWriteReq 1 [0x01, 0x00] 2 0
                      GATT_CLIENT_CFG_NOTIFY] } ∧
    callbackCount
      (RelayWriteAttrCB sampleExt 0x03 scenarioStart 1 sampleCccAttr [0x01, 0x00] 2 0 0).calls
      = 0 ∧
    notifyCount
      (RelayWriteAttrCB sampleExt 0x03 scenarioStart 1 sampleCccAttr [0x01, 0x00] 2 0 0).calls
      = 0 :=
  have h := subscription_write_delegates sampleExt 0x03 scenarioStart 1 0 sampleCccAttr
    [0x01, 0x00] 2 (by decide) (by decide)
  ⟨h.1, h.2.2.1, h.2.2.2⟩

/-! ## Local accessor, registration, ordering and read independence -/

/-- C16: `Relay_SetParameter` never invokes the state-change callback, for
every parameter id, length, value and prior state (the only call it can make
is the notification broadcast), and it leaves the installed callback as it
was. -/
theorem setParameter_never_invokes_callback (ext : Ext) (notifyRet : bStatus_t) (s : State)
    (param len value : Nat) :
    callbackCount (Relay_SetParameter ext notifyRet s param len value).calls = 0 ∧
    (Relay_SetParameter ext notifyRet s param len value).state.relayServiceStateChangeCB
      = s.relayServiceStateChangeCB := by
  by_cases hp : param = RELAY_PARAM_STATE
  · by_cases hl : len = 1
    · by_cases hv : value = s.relayState
      · simp [Relay_SetParameter, hp, hl, hv, callbackCount]
      · simp [Relay_SetParameter, hp, hl, hv, callbackCount]
    · simp [Relay_SetParameter, hp, hl, callbackCount]
  · simp [Relay_SetParameter, hp, callbackCount]

/-- C17: when `ICall_malloc` returns `NULL`, `Relay_AddService` returns
`bleMemAllocError` having made no call but the allocation (neither
`GATTServApp_InitCharCfg` nor `GATTServApp_RegisterService`); when it returns
a table, `Relay_AddService` initialises it, registers the attribute table
exactly once and returns exactly the status of the registration. -/
theorem addService_contract (registerRet : bStatus_t) (s : State) (table : Nat) :
    (Relay_AddService none registerRet s).status = bleMemAllocError ∧
    (Relay_AddService none registerRet s).calls = [ExtCall.ICall_malloc] ∧
    (Relay_AddService (some table) registerRet s).status = registerRet ∧
    (Relay_AddService (some table) registerRet s).calls
      = [ExtCall.ICall_malloc,
         ExtCall.GATTServApp_InitCharCfg INVALID_CONNHANDLE,
         ExtCall.GATTServApp_RegisterService GATT_NUM_ATTRS_relayAttrTbl] ∧
    (Relay_AddService (some table) registerRet s).state.relayStateClientCharCfg
      = some table :=
  ⟨rfl, rfl, rfl, rfl, rfl⟩

/-- C18: in a state-changing remote write with a callback installed, the
callback is invoked while `relayState` still holds the prior value and is run
on the prior state; the new normalized value is stored on the state the
callback leaves. In particular a callback that calls `Relay_GetParameter` and
keeps the result obtains the prior value, while the write ends with the new
value stored. -/
theorem callback_runs_before_store (ext : Ext) (cccRet : bStatus_t) (s : State)
    (fn connHandle method addr : Nat) (pAttr : gattAttribute_t) (b : Nat)
    (hid : ext.utilExtractUuid16 pAttr = some RELAY_STATE_UUID)
    (hperm : ext.gattPermitAuthorWrite pAttr.permissions = false)
    (hval : pAttr.pValue = Ptr.relayState)
    (hcb : s.relayServiceStateChangeCB = some fn)
    (hchg : s.relayState ≠ (if b ≠ 0 then 1 else 0)) :
    (RelayWriteAttrCB ext cccRet s connHandle pAttr [b] 1 0 method).calls
      = [ExtCall.relayServiceStateChangeCB fn s.relayState] ∧
    (RelayWriteAttrCB ext cccRet s connHandle pAttr [b] 1 0 method).state
      = store (ext.invoke fn s) Ptr.relayState (if b ≠ 0 then 1 else 0) ∧
    (ext.invoke fn = recordingCallback addr →
      (RelayWriteAttrCB ext cccRet s connHandle pAttr [b] 1 0 method).state.mem addr
        = s.relayState ∧
      (RelayWriteAttrCB ext cccRet s connHandle pAttr [b] 1 0 method).state.relayState
        = (if b ≠ 0 then 1 else 0)) := by
  have hn : notnot ([b].headD 0) = (if b ≠ 0 then 1 else 0) := rfl
  have hc : ¬ load s Ptr.relayState = (if b ≠ 0 then 1 else 0) := hchg
  have hw : RelayWriteAttrCB ext cccRet s connHandle pAttr [b] 1 0 method
      = { status := SUCCESS,
          state := store (ext.invoke fn s) Ptr.relayState (if b ≠ 0 then 1 else 0),
          calls := [ExtCall.relayServiceStateChangeCB fn s.relayState] } := by
    rw [RelayWriteAttrCB_value ext cccRet s connHandle method pAttr [b] hid hperm, hval, hn,
      if_neg hc, hcb]
  rw [hw]
  refine ⟨rfl, rfl, ?_⟩
  intro hinv
  rw [hinv]
  constructor
  · simp [recordingCallback, Relay_GetParameter, store]
  · rfl

/-- Witness for C18: stored value 0, cell 9 holding 77, a callback that keeps
what `Relay_GetParameter` gives it in cell 9, and a remote write of `0x05`:
afterwards cell 9 holds 0 and the stored value is 1. -/
theorem callback_runs_before_store_witness :
    (RelayWriteAttrCB sampleRecordingExt SUCCESS recordingStart 1 sampleValueAttr
        [5] 1 0 0).calls = [ExtCall.relayServiceStateChangeCB 7 0] ∧
    recordingStart.mem 9 = 77 ∧
    (RelayWriteAttrCB sampleRecordingExt SUCCESS recordingStart 1 sampleValueAttr
        [5] 1 0 0).state.mem 9 = 0 ∧
    (RelayWriteAttrCB sampleRecordingExt SUCCESS recordingStart 1 sampleValueAttr
        [5] 1 0 0).state.relayState = 1 :=
  have h := callback_runs_before_store sampleRecordingExt SUCCESS recordingStart 7 1 0 9
    sampleValueAttr 5 (by decide) (by decide) rfl rfl (by decide)
  ⟨h.1, rfl, (h.2.2 rfl).1, (h.2.2 rfl).2⟩

/-- C19: the result of `RelayReadAttrCB` (status, length and byte written) is
the same for two requests with the same offset, the same extracted attribute
identity and the same stored value, whatever the connection handles, the
methods, the maximum lengths and the rest of the state and of the attribute
are; and a read that returns success reports length 1 for every maximum
length, 0 included. -/
theorem read_result_independence (ext : Ext) (s1 s2 : State)
    (conn1 conn2 maxLen1 maxLen2 method1 method2 offset : Nat) (a1 a2 : gattAttribute_t)
    (hs : s1.relayState = s2.relayState)
    (ha : ext.utilExtractUuid16 a1 = ext.utilExtractUuid16 a2) :
    RelayReadAttrCB ext s1 conn1 a1 offset maxLen1 method1
      = RelayReadAttrCB ext s2 conn2 a2 offset maxLen2 method2 ∧
    ((RelayReadAttrCB ext s1 conn1 a1 offset maxLen1 method1).status = SUCCESS →
      (RelayReadAttrCB ext s1 conn1 a1 offset maxLen1 method1).pLen = some 1 ∧
      (RelayReadAttrCB ext s1 conn1 a1 offset 0 method1).pLen = some 1) := by
  constructor
  · simp only [RelayReadAttrCB, ha, hs]
  · unfold RelayReadAttrCB
    by_cases ho : offset > 0
    · simp only [ho, if_true]
      intro h
      exact absurd h (by decide)
    · simp only [ho, if_false]
      cases ext.utilExtractUuid16 a1 with
      | none =>
        intro h
        exact absurd h (show ATT_ERR_INVALID_HANDLE ≠ SUCCESS by decide)
      | some u =>
        by_cases hu : u = RELAY_STATE_UUID
        · simp only [hu, if_true]
          intro _
          constructor <;> first | rfl | trivial
        · simp only [hu, if_false]
          intro h
          exact absurd h (by decide)

/-- Witness for C19: two reads of the relay-state identity on stored value 0,
one with maximum length 0 on connection 1, the other with maximum length 20
on connection 2 through an attribute with other permissions and on a state
without callback. -/
theorem read_result_independence_witness :
    RelayReadAttrCB sampleExt scenarioStart 1 sampleValueAttr 0 0 0
      = RelayReadAttrCB sampleExt (initState fun _ => 5) 2 sampleAuthorAttr 0 20 3 ∧
    (RelayReadAttrCB sampleExt scenarioStart 1 sampleValueAttr 0 0 0).pLen = some 1 :=
  have h := read_result_independence sampleExt scenarioStart (initState fun _ => 5)
    1 2 0 20 0 3 0 sampleValueAttr sampleAuthorAttr rfl (by decide)
  ⟨h.1, (h.2 (by decide)).1⟩

end RelayService
